import Mathlib

/-!
Verification of the explorergame simulation core (src/main.go).

The program is a terminal "submarine" simulator: a shared mutable `Player`
record, a 16 ms physical update loop (`updateTick`), sampler loops that
read and display state, and button callbacks that mutate setpoints.

The shallow embedding below models float64 quantities as rationals (ℚ),
the per-tick body of `updateTick` as a pure state transformer parameterized
by the two uniform random draws of that tick, and each button callback as a
pure state transformer.  Random draws `rand.Float64()` return a value in
[0, 1); they enter the theorems as universally quantified rationals with
that bound.
-/

/-- Point3D from main.go: three real coordinates. -/
structure Point3D where
  x : ℚ
  y : ℚ
  z : ℚ
deriving DecidableEq, Repr

/-- Player from main.go: the single shared mutable simulation state. -/
structure Player where
  position : Point3D
  turbineRpmSettingValue : ℚ
  turbineRpmActualValue : ℚ
  velocity : ℚ
  acceleration : ℚ
  rudderAngle : ℚ
  direction : ℚ
  directionAcceleration : ℚ
  buoyancy : ℚ
  buoyancyAcceleration : ℚ
deriving DecidableEq, Repr

/-- The initial Player literal built at the top of main() in main.go. -/
def initialPlayer : Player :=
  { position := ⟨0, 0, 0⟩
    turbineRpmSettingValue := 0
    turbineRpmActualValue := 0
    velocity := 0
    acceleration := 0
    rudderAngle := 35
    direction := 0
    directionAcceleration := 0
    buoyancy := 50
    buoyancyAcceleration := 0 }

/-- The divisor of the rpm lag formula in updateTick (main.go line 112):
`(p.turbineRpmActualValue + 1) * 5`. -/
def lagDivisor (a : ℚ) : ℚ := (a + 1) * 5

/-- The rpm lag step of updateTick (main.go line 112) as a function of the
setting `s` and the current actual value `a`:
`a += (s - a) / ((a + 1) * 5)`. -/
def lagStep (s a : ℚ) : ℚ := a + (s - a) / lagDivisor a

/-- One tick of the physical update loop `updateTick` (main.go lines
110-121), parameterized by the two `rand.Float64()` draws `u1` (jitter,
line 114) and `u2` (damping, line 121), each in [0, 1).  The sequential
assignments of the Go body become sequential lets; only the three fields
written by the body change. -/
def updateTickStep (u1 u2 : ℚ) (p : Player) : Player :=
  let a1 := p.turbineRpmActualValue +
    (p.turbineRpmSettingValue - p.turbineRpmActualValue) /
      ((p.turbineRpmActualValue + 1) * 5)
  let a2 := a1 * (998 / 1000)
  let a3 := a2 + a2 * u1 * (4 / 1000)
  let acc := a3 / 10
  let v1 := p.velocity + acc / 10
  let v2 := v1 * (99 / 100 + u2 * (3 / 1000))
  { p with
      turbineRpmActualValue := a3
      acceleration := acc
      velocity := v2 }

/-- Modelled from the spec (claim C1 wording, §4.1 step 1): the first-order
lag step as a state transformer, for comparison with `updateTickStep`. -/
def specLagStep (p : Player) : Player :=
  { p with turbineRpmActualValue :=
      p.turbineRpmActualValue +
        (p.turbineRpmSettingValue - p.turbineRpmActualValue) /
          ((p.turbineRpmActualValue + 1) * 5) }

/-- Modelled from the spec (§4.1 step 2): passive decay `*= 0.998`. -/
def specDecayStep (p : Player) : Player :=
  { p with turbineRpmActualValue := p.turbineRpmActualValue * (998 / 1000) }

/-- Modelled from the spec (§4.1 step 3): multiplicative jitter
`+= turbineRpmActual * r1` with `r1` the draw from [0, 0.004). -/
def specJitterStep (r1 : ℚ) (p : Player) : Player :=
  { p with turbineRpmActualValue :=
      p.turbineRpmActualValue + p.turbineRpmActualValue * r1 }

/-- Modelled from the spec (§4.1 step 4): `acceleration = turbineRpmActual / 10.0`. -/
def specAccelStep (p : Player) : Player :=
  { p with acceleration := p.turbineRpmActualValue / 10 }

/-- Modelled from the spec (§4.1 step 5): `velocity += acceleration / 10`. -/
def specEulerStep (p : Player) : Player :=
  { p with velocity := p.velocity + p.acceleration / 10 }

/-- Modelled from the spec (§4.1 step 6): `velocity *= d` with `d` the
damping draw from [0.99, 0.993). -/
def specDragStep (d : ℚ) (p : Player) : Player :=
  { p with velocity := p.velocity * d }

/-- Round a rational to the nearest integer, ties to even — the rounding
used by Go's strconv.FormatFloat on an exactly representable value. -/
def roundHalfEven (q : ℚ) : ℤ :=
  let f : ℤ := ⌊q⌋
  let r : ℚ := q - f
  if r < 1 / 2 then f
  else if 1 / 2 < r then f + 1
  else if f % 2 = 0 then f else f + 1

/-- Decimal rendering of `strconv.FormatFloat(v, 'f', 4, 64)` (main.go
lines 75-83): fixed notation with exactly four digits after the point. -/
def formatFixed4 (v : ℚ) : String :=
  let sign := if v < 0 then "-" else ""
  let m : ℤ := roundHalfEven (|v| * 10000)
  let ip := m / 10000
  let fp := (m % 10000).toNat
  let fs := toString fp
  sign ++ toString ip ++ "." ++
    String.mk (List.replicate (4 - fs.length) '0') ++ fs

/-- The velocity band classification of writeLines (main.go lines 74-86):
an ordered first-match over the thresholds 1.0, 10.0, 50.0, 100.0, 150.0,
returning the band label of the message built in that branch. -/
def classifyVelocity (v : ℚ) : String :=
  if v < 1 then "Stopped."
  else if v < 10 then "Nearly Stopped."
  else if v < 50 then "Moving forward at low speed."
  else if v < 100 then "Moving forward."
  else if v < 150 then "Moving forward at high speed."
  else "Full speed forward."

/-- The six band labels of writeLines, in threshold order. -/
def bandLabels : List String :=
  ["Stopped.", "Nearly Stopped.", "Moving forward at low speed.",
   "Moving forward.", "Moving forward at high speed.", "Full speed forward."]

/-- The status message built by writeLines (main.go lines 73-86) from the
velocity it reads: the band label, with the raw velocity appended via
FormatFloat in every branch except the final "Full speed forward." one. -/
def writeLinesMessage (v : ℚ) : String :=
  if v < 1 then "Stopped." ++ formatFixed4 v
  else if v < 10 then "Nearly Stopped." ++ formatFixed4 v
  else if v < 50 then "Moving forward at low speed." ++ formatFixed4 v
  else if v < 100 then "Moving forward." ++ formatFixed4 v
  else if v < 150 then "Moving forward at high speed." ++ formatFixed4 v
  else "Full speed forward."

/-- The sequence of messages forwarded by writeLines (main.go lines
87-99): `message` is computed once from the velocity read when the
function is entered (line 74), before the ticker loop starts, so every
tick forwards that same message regardless of the velocity current at
that tick.  `velocityAtTicks` lists the value `p.velocity` holds at each
successive 1000 ms tick; the loop never reads it. -/
def writeLinesEmissions (velocityAtCall : ℚ) (velocityAtTicks : List ℚ) :
    List String :=
  velocityAtTicks.map (fun _ => writeLinesMessage velocityAtCall)

/-- The buttonTurbinePlus callback (main.go lines 288-297):
`turbineRpmSettingValue += 10`, then clamp down to 200. -/
def buttonTurbinePlusPress (p : Player) : Player :=
  let p1 := { p with turbineRpmSettingValue := p.turbineRpmSettingValue + 10 }
  if p1.turbineRpmSettingValue > 200 then
    { p1 with turbineRpmSettingValue := 200 }
  else p1

/-- The buttonTurbineMinus callback (main.go lines 299-308):
`turbineRpmSettingValue -= 10`, then clamp up to 0. -/
def buttonTurbineMinusPress (p : Player) : Player :=
  let p1 := { p with turbineRpmSettingValue := p.turbineRpmSettingValue - 10 }
  if p1.turbineRpmSettingValue < 0 then
    { p1 with turbineRpmSettingValue := 0 }
  else p1

/-- The rudderLeftButtonObj callback (main.go lines 339-343):
`rudderAngle = math.Max(math.Min(rudderAngle - 2.5, 70), 0)`. -/
def rudderLeftButtonPress (p : Player) : Player :=
  { p with rudderAngle := max (min (p.rudderAngle - 5 / 2) 70) 0 }

/-- The actuator operations the program provides: main() creates exactly
three button callbacks that mutate simulation state — buttonTurbinePlus,
buttonTurbineMinus and rudderLeftButtonObj.  No rudder-right button
exists in main.go. -/
inductive ActuatorOp where
  | turbinePlus
  | turbineMinus
  | rudderLeft
deriving DecidableEq, Repr

/-- The state effect of each provided actuator operation. -/
def applyActuator : ActuatorOp → Player → Player
  | ActuatorOp.turbinePlus => buttonTurbinePlusPress
  | ActuatorOp.turbineMinus => buttonTurbineMinusPress
  | ActuatorOp.rudderLeft => rudderLeftButtonPress

/-- A sequence drawn from the two throttle operations only. -/
inductive ThrottleOp where
  | inc
  | dec
deriving DecidableEq, Repr

/-- The state effect of one throttle operation. -/
def applyThrottleOp : ThrottleOp → Player → Player
  | ThrottleOp.inc => buttonTurbinePlusPress
  | ThrottleOp.dec => buttonTurbineMinusPress

/-- Apply a finite sequence of throttle operations, leftmost first. -/
def applyThrottleOps (ops : List ThrottleOp) (p : Player) : Player :=
  ops.foldl (fun q op => applyThrottleOp op q) p

/-- The claimed state invariant (claim C10): actual rpm and velocity
non-negative, setting within [0, 200]. -/
def StateInv (p : Player) : Prop :=
  0 ≤ p.turbineRpmActualValue ∧ 0 ≤ p.velocity ∧
    0 ≤ p.turbineRpmSettingValue ∧ p.turbineRpmSettingValue ≤ 200

instance (p : Player) : Decidable (StateInv p) := by
  unfold StateInv; infer_instance

/-- Claim C1: each tick of updateTick performs exactly the six state
updates of §4.1 in the stated order — with jitter coefficient
`r1 = u1 * 0.004 ∈ [0, 0.004)` and damping factor
`d = 0.99 + u2 * 0.003 ∈ [0.99, 0.993)` — and modifies no other
simulation-state field. -/
theorem updateTick_six_steps_in_order (p : Player) (u1 u2 : ℚ)
    (h1 : 0 ≤ u1) (h1' : u1 < 1) (h2 : 0 ≤ u2) (h2' : u2 < 1) :
    (0 ≤ u1 * (4 / 1000) ∧ u1 * (4 / 1000) < 4 / 1000) ∧
    (99 / 100 ≤ 99 / 100 + u2 * (3 / 1000) ∧
      99 / 100 + u2 * (3 / 1000) < 993 / 1000) ∧
    updateTickStep u1 u2 p =
      specDragStep (99 / 100 + u2 * (3 / 1000))
        (specEulerStep (specAccelStep (specJitterStep (u1 * (4 / 1000))
          (specDecayStep (specLagStep p))))) ∧
    (updateTickStep u1 u2 p).position = p.position ∧
    (updateTickStep u1 u2 p).turbineRpmSettingValue = p.turbineRpmSettingValue ∧
    (updateTickStep u1 u2 p).rudderAngle = p.rudderAngle ∧
    (updateTickStep u1 u2 p).direction = p.direction ∧
    (updateTickStep u1 u2 p).directionAcceleration = p.directionAcceleration ∧
    (updateTickStep u1 u2 p).buoyancy = p.buoyancy ∧
    (updateTickStep u1 u2 p).buoyancyAcceleration = p.buoyancyAcceleration := by
  obtain ⟨pos, st, act, vel, acc, rud, dir, dacc, b, bacc⟩ := p
  refine ⟨⟨by nlinarith, by nlinarith⟩, ⟨by nlinarith, by nlinarith⟩,
    ?_, rfl, rfl, rfl, rfl, rfl, rfl, rfl⟩
  simp only [updateTickStep, specLagStep, specDecayStep, specJitterStep,
    specAccelStep, specEulerStep, specDragStep, Player.mk.injEq]
  and_intros <;> ring

/-- Witness for C1 at the initial state with both draws zero. -/
theorem updateTick_six_steps_in_order_witness :
    updateTickStep 0 0 initialPlayer =
      specDragStep (99 / 100 + 0 * (3 / 1000))
        (specEulerStep (specAccelStep (specJitterStep (0 * (4 / 1000))
          (specDecayStep (specLagStep initialPlayer))))) :=
  (updateTick_six_steps_in_order initialPlayer 0 0 (le_refl 0) zero_lt_one
    (le_refl 0) zero_lt_one).2.2.1

/-- Claim C3: classifyVelocity is total on non-negative velocities, always
returning exactly one of the six pairwise-distinct band labels, evaluated
as an ordered first-match over the thresholds 1.0, 10.0, 50.0, 100.0,
150.0; each boundary value belongs to the upper adjoining band. -/
theorem classifyVelocity_total_and_boundaries (v : ℚ) (hv : 0 ≤ v) :
    classifyVelocity v ∈ bandLabels ∧ bandLabels.Nodup ∧
    classifyVelocity 10 = "Moving forward at low speed." ∧
    classifyVelocity 1 = "Nearly Stopped." ∧
    classifyVelocity 50 = "Moving forward." ∧
    classifyVelocity 100 = "Moving forward at high speed." ∧
    classifyVelocity 150 = "Full speed forward." := by
  refine ⟨?_, by decide, by norm_num [classifyVelocity],
    by norm_num [classifyVelocity], by norm_num [classifyVelocity],
    by norm_num [classifyVelocity], by norm_num [classifyVelocity]⟩
  unfold classifyVelocity bandLabels
  split_ifs <;> simp

/-- Witness for C3 at velocity 0. -/
theorem classifyVelocity_total_and_boundaries_witness :
    classifyVelocity 0 ∈ bandLabels :=
  (classifyVelocity_total_and_boundaries 0 (le_refl 0)).1

/-- Claim C4: for every setpoint s in [0, 200] and actual rpm a ≥ 0, one
lag step moves the actual rpm strictly toward s without overshoot, and is
a fixed point exactly at a = s. -/
theorem lagStep_monotone_no_overshoot (s a : ℚ)
    (hs0 : 0 ≤ s) (hs200 : s ≤ 200) (ha : 0 ≤ a) :
    (a < s → a < lagStep s a ∧ lagStep s a ≤ s) ∧
    (s < a → s ≤ lagStep s a ∧ lagStep s a < a) ∧
    (lagStep s a = a ↔ a = s) := by
  have hD : (0 : ℚ) < (a + 1) * 5 := by nlinarith
  have hD1 : (1 : ℚ) < (a + 1) * 5 := by nlinarith
  unfold lagStep lagDivisor
  refine ⟨fun h => ⟨?_, ?_⟩, fun h => ⟨?_, ?_⟩, ?_, ?_⟩
  · have hpos : 0 < (s - a) / ((a + 1) * 5) := div_pos (by linarith) hD
    linarith
  · have hle : (s - a) / ((a + 1) * 5) ≤ s - a :=
      div_le_self (by linarith) (le_of_lt hD1)
    linarith
  · have hx : (s - a) * ((a + 1) * 5) ≤ s - a := by nlinarith
    have := (le_div_iff₀ hD).mpr hx
    linarith
  · have hneg : (s - a) / ((a + 1) * 5) < 0 :=
      div_neg_of_neg_of_pos (by linarith) hD
    linarith
  · intro h
    have h2 : (s - a) / ((a + 1) * 5) = 0 := by linarith
    rcases div_eq_zero_iff.mp h2 with h3 | h3
    · linarith
    · exact absurd h3 (ne_of_gt hD)
  · intro h
    rw [h]
    simp

/-- Witness for C4 at s = 200, a = 0. -/
theorem lagStep_monotone_no_overshoot_witness :
    (0 : ℚ) < lagStep 200 0 ∧ lagStep 200 0 ≤ 200 :=
  (lagStep_monotone_no_overshoot 200 0 (by norm_num) (le_refl 200)
    (le_refl 0)).1 (by norm_num)

/-- Claim C9: the divisor of the rpm lag formula is strictly positive for
every non-negative actual rpm, so the lag step is total (no
division-by-zero path): the division satisfies its defining equation, and
the tick's new actual rpm is the lag step composed with decay and
jitter. -/
theorem physicalUpdate_no_division_by_zero (p : Player) (u1 u2 : ℚ)
    (ha : 0 ≤ p.turbineRpmActualValue) :
    0 < lagDivisor p.turbineRpmActualValue ∧
    lagDivisor p.turbineRpmActualValue ≠ 0 ∧
    lagStep p.turbineRpmSettingValue p.turbineRpmActualValue *
        lagDivisor p.turbineRpmActualValue =
      p.turbineRpmActualValue * lagDivisor p.turbineRpmActualValue +
        (p.turbineRpmSettingValue - p.turbineRpmActualValue) ∧
    (updateTickStep u1 u2 p).turbineRpmActualValue =
      lagStep p.turbineRpmSettingValue p.turbineRpmActualValue *
        (998 / 1000) * (1 + u1 * (4 / 1000)) := by
  have hD : (0 : ℚ) < (p.turbineRpmActualValue + 1) * 5 := by nlinarith
  refine ⟨hD, ne_of_gt hD, ?_, ?_⟩
  · unfold lagStep lagDivisor
    field_simp
  · simp only [updateTickStep, lagStep, lagDivisor]
    ring

/-- Witness for C9 at the initial state with both draws zero. -/
theorem physicalUpdate_no_division_by_zero_witness :
    0 < lagDivisor initialPlayer.turbineRpmActualValue :=
  (physicalUpdate_no_division_by_zero initialPlayer 0 0
    (by norm_num [initialPlayer])).1

/-- Claim C2 fails on the code: writeLines computes its message once from
the velocity read when the function is entered, before the ticker loop, so
an emission is not re-classified against the current velocity.  With
velocity 0 at the call and 200 at the first 1000 ms tick, the loop emits
"Stopped.0.0000" although the current velocity's message is "Full speed
forward." (which moreover carries no raw velocity value). -/
theorem writeLines_stale_message :
    writeLinesEmissions 0 [200] = ["Stopped.0.0000"] ∧
    writeLinesMessage 200 = "Full speed forward." ∧
    ("Stopped.0.0000" : String) ≠ "Full speed forward." := by
  have h0 : roundHalfEven (0 : ℚ) = 0 := by simp [roundHalfEven]
  refine ⟨?_, by norm_num [writeLinesMessage], by decide⟩
  norm_num [writeLinesEmissions, writeLinesMessage, formatFixed4, h0]
  decide

/-- Projection of buttonTurbinePlusPress on the setting: the clamped
increment is exactly min (setting + 10) 200. -/
theorem buttonTurbinePlusPress_setting (p : Player) :
    (buttonTurbinePlusPress p).turbineRpmSettingValue =
      min (p.turbineRpmSettingValue + 10) 200 := by
  simp only [buttonTurbinePlusPress]
  split_ifs with h
  · exact (min_eq_right (le_of_lt h)).symm
  · exact (min_eq_left (not_lt.mp h)).symm

/-- Projection of buttonTurbineMinusPress on the setting: the clamped
decrement is exactly max (setting - 10) 0. -/
theorem buttonTurbineMinusPress_setting (p : Player) :
    (buttonTurbineMinusPress p).turbineRpmSettingValue =
      max (p.turbineRpmSettingValue - 10) 0 := by
  simp only [buttonTurbineMinusPress]
  split_ifs with h
  · exact (max_eq_right (le_of_lt h)).symm
  · exact (max_eq_left (not_lt.mp h)).symm

/-- buttonTurbinePlusPress writes only the setting: the actual rpm and
velocity are untouched. -/
theorem buttonTurbinePlusPress_other_fields (p : Player) :
    (buttonTurbinePlusPress p).turbineRpmActualValue =
        p.turbineRpmActualValue ∧
      (buttonTurbinePlusPress p).velocity = p.velocity := by
  simp only [buttonTurbinePlusPress]
  split_ifs <;> exact ⟨rfl, rfl⟩

/-- buttonTurbineMinusPress writes only the setting: the actual rpm and
velocity are untouched. -/
theorem buttonTurbineMinusPress_other_fields (p : Player) :
    (buttonTurbineMinusPress p).turbineRpmActualValue =
        p.turbineRpmActualValue ∧
      (buttonTurbineMinusPress p).velocity = p.velocity := by
  simp only [buttonTurbineMinusPress]
  split_ifs <;> exact ⟨rfl, rfl⟩

/-- Any finite sequence of throttle operations keeps the setting within
[0, 200]. -/
theorem applyThrottleOps_range (ops : List ThrottleOp) (p : Player)
    (h0 : 0 ≤ p.turbineRpmSettingValue)
    (h200 : p.turbineRpmSettingValue ≤ 200) :
    0 ≤ (applyThrottleOps ops p).turbineRpmSettingValue ∧
      (applyThrottleOps ops p).turbineRpmSettingValue ≤ 200 := by
  induction ops generalizing p with
  | nil => exact ⟨h0, h200⟩
  | cons op rest ih =>
    have hstep : applyThrottleOps (op :: rest) p =
        applyThrottleOps rest (applyThrottleOp op p) := rfl
    rw [hstep]
    cases op with
    | inc =>
      apply ih
      · rw [applyThrottleOp, buttonTurbinePlusPress_setting]
        exact le_min (by linarith) (by norm_num)
      · rw [applyThrottleOp, buttonTurbinePlusPress_setting]
        exact min_le_right _ _
    | dec =>
      apply ih
      · rw [applyThrottleOp, buttonTurbineMinusPress_setting]
        exact le_max_right _ _
      · rw [applyThrottleOp, buttonTurbineMinusPress_setting]
        exact max_le (by linarith) (by norm_num)

/-- Claim C5: buttonTurbinePlus sets the setting to min (setting + 10) 200
and buttonTurbineMinus to max (setting - 10) 0; every finite sequence of
the two operations keeps a setting started in [0, 200] within [0, 200];
and twenty increases from the initial setting 0 yield exactly 200. -/
theorem throttle_clamped_increments (p : Player) (ops : List ThrottleOp)
    (h0 : 0 ≤ p.turbineRpmSettingValue)
    (h200 : p.turbineRpmSettingValue ≤ 200) :
    (buttonTurbinePlusPress p).turbineRpmSettingValue =
      min (p.turbineRpmSettingValue + 10) 200 ∧
    (buttonTurbineMinusPress p).turbineRpmSettingValue =
      max (p.turbineRpmSettingValue - 10) 0 ∧
    0 ≤ (applyThrottleOps ops p).turbineRpmSettingValue ∧
    (applyThrottleOps ops p).turbineRpmSettingValue ≤ 200 ∧
    (applyThrottleOps (List.replicate 20 ThrottleOp.inc)
        initialPlayer).turbineRpmSettingValue = 200 := by
  obtain ⟨hlo, hhi⟩ := applyThrottleOps_range ops p h0 h200
  refine ⟨buttonTurbinePlusPress_setting p, buttonTurbineMinusPress_setting p,
    hlo, hhi, ?_⟩
  norm_num [applyThrottleOps, applyThrottleOp, buttonTurbinePlusPress,
    List.replicate, List.foldl, initialPlayer]

/-- Witness for C5 at the initial state with the empty sequence. -/
theorem throttle_clamped_increments_witness :
    (buttonTurbinePlusPress initialPlayer).turbineRpmSettingValue =
      min (initialPlayer.turbineRpmSettingValue + 10) 200 :=
  (throttle_clamped_increments initialPlayer []
    (by norm_num [initialPlayer]) (by norm_num [initialPlayer])).1

/-- Claim C6 fails on the code: main() creates no rudder-right button at
all — its three state-mutating callbacks are buttonTurbinePlus,
buttonTurbineMinus and rudderLeftButtonObj — so no provided actuator
realizes clamp(rudderAngle + 2.5, 0, 70).  At the initial state
(rudderAngle 35) that operation would yield 37.5, while the three provided
operations yield 35, 35 and 32.5. -/
theorem no_rudderRight_actuator :
    max (min (initialPlayer.rudderAngle + 5 / 2) 70) 0 = 75 / 2 ∧
    (applyActuator ActuatorOp.turbinePlus initialPlayer).rudderAngle ≠ 75 / 2 ∧
    (applyActuator ActuatorOp.turbineMinus initialPlayer).rudderAngle ≠ 75 / 2 ∧
    (applyActuator ActuatorOp.rudderLeft initialPlayer).rudderAngle ≠ 75 / 2 := by
  norm_num [applyActuator, buttonTurbinePlusPress, buttonTurbineMinusPress,
    rudderLeftButtonPress, initialPlayer, min_def, max_def]

/-- Claim C7: the rudderLeftButtonObj callback sets rudderAngle to
clamp(rudderAngle - 2.5, 0, 70); from the initial rudderAngle 35, three
presses yield 27.5, and any number of further presses never drives the
angle below 0. -/
theorem rudderLeft_clamp_and_scenario (n : ℕ) :
    (∀ p : Player, (rudderLeftButtonPress p).rudderAngle =
        max (min (p.rudderAngle - 5 / 2) 70) 0) ∧
    (rudderLeftButtonPress^[3] initialPlayer).rudderAngle = 55 / 2 ∧
    0 ≤ (rudderLeftButtonPress^[n + 3] initialPlayer).rudderAngle := by
  refine ⟨fun p => rfl, ?_, ?_⟩
  · norm_num [Function.iterate_succ, Function.iterate_zero, Function.comp,
      rudderLeftButtonPress, initialPlayer, min_def, max_def]
  · rw [show n + 3 = (n + 2) + 1 from rfl, Function.iterate_succ_apply']
    exact le_max_right _ _

/-- Claim C8: from any setting in [10, 190], an increase followed by a
decrease restores the setting exactly — neither clamp fires. -/
theorem throttle_inc_dec_cancels (p : Player)
    (h10 : 10 ≤ p.turbineRpmSettingValue)
    (h190 : p.turbineRpmSettingValue ≤ 190) :
    (buttonTurbineMinusPress
        (buttonTurbinePlusPress p)).turbineRpmSettingValue =
      p.turbineRpmSettingValue ∧
    ¬ p.turbineRpmSettingValue + 10 > 200 ∧
    ¬ p.turbineRpmSettingValue + 10 - 10 < 0 := by
  have hplus : (buttonTurbinePlusPress p).turbineRpmSettingValue =
      p.turbineRpmSettingValue + 10 := by
    rw [buttonTurbinePlusPress_setting]
    exact min_eq_left (by linarith)
  refine ⟨?_, by linarith, by linarith⟩
  rw [buttonTurbineMinusPress_setting, hplus]
  rw [show p.turbineRpmSettingValue + 10 - 10 = p.turbineRpmSettingValue
    from by ring]
  exact max_eq_left (by linarith)

/-- Witness for C8 at setting 100. -/
theorem throttle_inc_dec_cancels_witness :
    (buttonTurbineMinusPress (buttonTurbinePlusPress
        { initialPlayer with turbineRpmSettingValue := 100
          })).turbineRpmSettingValue =
      ({ initialPlayer with turbineRpmSettingValue := 100
          } : Player).turbineRpmSettingValue :=
  (throttle_inc_dec_cancels { initialPlayer with turbineRpmSettingValue := 100 }
    (by norm_num) (by norm_num)).1

/-- Claim C10: the invariant — actual rpm and velocity non-negative,
setting in [0, 200] — holds initially and is preserved by every tick of
the physical update loop (for any draws in [0, 1)) and by every provided
actuator operation. -/
theorem stateInv_initial_and_preserved (p : Player) (u1 u2 : ℚ)
    (hp : StateInv p) (h1 : 0 ≤ u1) (h1' : u1 < 1)
    (h2 : 0 ≤ u2) (h2' : u2 < 1) :
    StateInv initialPlayer ∧ StateInv (updateTickStep u1 u2 p) ∧
      ∀ op : ActuatorOp, StateInv (applyActuator op p) := by
  obtain ⟨hA, hV, hS0, hS200⟩ := hp
  refine ⟨by norm_num [StateInv, initialPlayer], ?_, ?_⟩
  · have hD : (0 : ℚ) < (p.turbineRpmActualValue + 1) * 5 := by nlinarith
    have ha1 : 0 ≤ p.turbineRpmActualValue +
        (p.turbineRpmSettingValue - p.turbineRpmActualValue) /
          ((p.turbineRpmActualValue + 1) * 5) := by
      have hkey : -p.turbineRpmActualValue ≤
          (p.turbineRpmSettingValue - p.turbineRpmActualValue) /
            ((p.turbineRpmActualValue + 1) * 5) := by
        rw [le_div_iff₀ hD]
        nlinarith
      linarith
    have ha2 : 0 ≤ (p.turbineRpmActualValue +
        (p.turbineRpmSettingValue - p.turbineRpmActualValue) /
          ((p.turbineRpmActualValue + 1) * 5)) * (998 / 1000) := by
      nlinarith
    have ha3 : 0 ≤ (p.turbineRpmActualValue +
        (p.turbineRpmSettingValue - p.turbineRpmActualValue) /
          ((p.turbineRpmActualValue + 1) * 5)) * (998 / 1000) +
        (p.turbineRpmActualValue +
          (p.turbineRpmSettingValue - p.turbineRpmActualValue) /
            ((p.turbineRpmActualValue + 1) * 5)) * (998 / 1000) * u1 *
          (4 / 1000) := by
      nlinarith
    refine ⟨?_, ?_, ?_, ?_⟩ <;>
      simp only [updateTickStep]
    · exact ha3
    · have hv1 : 0 ≤ p.velocity +
          ((p.turbineRpmActualValue +
            (p.turbineRpmSettingValue - p.turbineRpmActualValue) /
              ((p.turbineRpmActualValue + 1) * 5)) * (998 / 1000) +
          (p.turbineRpmActualValue +
            (p.turbineRpmSettingValue - p.turbineRpmActualValue) /
              ((p.turbineRpmActualValue + 1) * 5)) * (998 / 1000) * u1 *
            (4 / 1000)) / 10 / 10 := by
        have : 0 ≤ ((p.turbineRpmActualValue +
            (p.turbineRpmSettingValue - p.turbineRpmActualValue) /
              ((p.turbineRpmActualValue + 1) * 5)) * (998 / 1000) +
          (p.turbineRpmActualValue +
            (p.turbineRpmSettingValue - p.turbineRpmActualValue) /
              ((p.turbineRpmActualValue + 1) * 5)) * (998 / 1000) * u1 *
            (4 / 1000)) / 10 / 10 := by positivity
        linarith
      nlinarith
    · exact hS0
    · exact hS200
  · intro op
    cases op with
    | turbinePlus =>
      refine ⟨?_, ?_, ?_, ?_⟩
      · simpa only [applyActuator,
          (buttonTurbinePlusPress_other_fields p).1] using hA
      · simpa only [applyActuator,
          (buttonTurbinePlusPress_other_fields p).2] using hV
      · simp only [applyActuator, buttonTurbinePlusPress_setting]
        exact le_min (by linarith) (by norm_num)
      · simp only [applyActuator, buttonTurbinePlusPress_setting]
        exact min_le_right _ _
    | turbineMinus =>
      refine ⟨?_, ?_, ?_, ?_⟩
      · simpa only [applyActuator,
          (buttonTurbineMinusPress_other_fields p).1] using hA
      · simpa only [applyActuator,
          (buttonTurbineMinusPress_other_fields p).2] using hV
      · simp only [applyActuator, buttonTurbineMinusPress_setting]
        exact le_max_right _ _
      · simp only [applyActuator, buttonTurbineMinusPress_setting]
        exact max_le (by linarith) (by norm_num)
    | rudderLeft =>
      exact ⟨hA, hV, hS0, hS200⟩

/-- Witness for C10 at the initial state with both draws zero. -/
theorem stateInv_initial_and_preserved_witness :
    StateInv (updateTickStep 0 0 initialPlayer) :=
  (stateInv_initial_and_preserved initialPlayer 0 0
    (by norm_num [StateInv, initialPlayer]) (le_refl 0) zero_lt_one
    (le_refl 0) zero_lt_one).2.1
